import Mathlib

/-!
# Shallow embedding of the sofra_backend stock / invoice subsystem

This file embeds, in Lean 4, the stock-consistency and sequential-ID logic of
the `sofra_backend` repository:

* `src/models/productModel.js` — the stock ledger
  (`addQuantitiesToProducts`, `removeQuantitiesFromProducts`);
* `src/models/movementModel.js` — the movement engine
  (`createStockMovement`, `deleteMovement`, `getNextMovementId`);
* `src/controllers/invoiceCon.js` — the invoice integration
  (`generateInvoiceId`, `createInvoice`, `updateInvoice`, `confirmInvoice`,
  `createConfirmedInvoice`, `deleteInvoice`).

The document store (Firestore) is modelled as association lists from document
id to document, carried in a `DB` record.  A Firestore write batch is a list
of staged product writes applied atomically by `commitProdUpdates`; reads
performed while a batch is still open see the pre-commit state, exactly as in
the source.  JavaScript `x || y` on numeric fields is modelled by `jsOrI`
(`0`, like `undefined`, is falsy); `x ?? y` on optional arguments is
`Option.getD`.  JS numbers on these code paths hold integer quantities and
prices, so they are modelled as `Int`.  Dates are epoch milliseconds
(`Int`); the source's `hoursDiff > 24` over float division by 3600000 is the
exact integer comparison `timeDiff > 86400000`.
-/

set_option autoImplicit false

namespace Sofra

/-- JS `a || d` for an optional numeric field: `undefined` and `0` are falsy. -/
def jsOrI (a : Option Int) (d : Int) : Int :=
  match a with
  | none => d
  | some v => if v = 0 then d else v

/-- JS truthiness of an optional string field: `undefined` and `""` are falsy. -/
def truthyS : Option String → Bool
  | none => false
  | some s => s ≠ ""

/-- JS `String.prototype.trim()`: strip leading and trailing whitespace
(structurally recursive so that concrete runs reduce in the kernel). -/
def jsTrim (s : String) : String :=
  String.mk (((s.data.dropWhile Char.isWhitespace).reverse.dropWhile
    Char.isWhitespace).reverse)

/-- JS `String.prototype.toUpperCase()` (ASCII, structurally recursive). -/
def jsToUpper (s : String) : String :=
  String.mk (s.data.map Char.toUpper)

/-- Association map from document id to document (a Firestore collection). -/
abbrev AssocMap (α : Type) := List (String × α)

/-- First binding of `key`, if any (Firestore `doc(key).get()`). -/
def AssocMap.find {α : Type} : AssocMap α → String → Option α
  | [], _ => none
  | (k, v) :: rest, key => if k = key then some v else AssocMap.find rest key

/-- Replace the binding of `key` (or append it), as a Firestore `set`/`update`. -/
def AssocMap.put {α : Type} : AssocMap α → String → α → AssocMap α
  | [], key, v => [(key, v)]
  | (k, w) :: rest, key, v =>
    if k = key then (k, v) :: rest else (k, w) :: AssocMap.put rest key v

/-- Remove the binding of `key` (Firestore `doc(key).delete()`). -/
def AssocMap.del {α : Type} : AssocMap α → String → AssocMap α
  | [], _ => []
  | (k, w) :: rest, key => if k = key then rest else (k, w) :: AssocMap.del rest key

/-- A product document.  The source uses two competing stock fields `q` and
`quantity` (and `updateInvoice` even consults a `currentStock` field), so all
three are kept as optional fields, `none` meaning the field is absent. -/
structure ProductDoc where
  name : String
  q : Option Int := none
  quantity : Option Int := none
  currentStock : Option Int := none
  price : Option Int := none
  unitPrice : Option Int := none
  /-- `expiryDate` as epoch ms; `none` = field absent (hence falsy). -/
  expiryDate : Option Int := none
  unit : Option String := none
  deriving Repr, DecidableEq

/-- A line of a persisted invoice's `products` array. -/
structure InvoiceLine where
  productId : Option String := none
  name : String
  quantity : Int
  unitPrice : Option Int := none
  price : Option Int := none
  total : Int := 0
  deriving Repr, DecidableEq

/-- An invoice document. -/
structure InvoiceDoc where
  invoiceId : String
  clientId : String
  clientName : String
  products : List InvoiceLine
  remise : Int
  advance : Int
  total : Int
  totalAfterDiscount : Int
  rest : Int
  status : String
  paid : Option Bool := none
  deriving Repr, DecidableEq

/-- A line of a persisted stock movement's `products` array. -/
structure MovementLine where
  productId : String
  productName : String
  quantity : Int
  unit : String
  unitPrice : Int
  total : Int
  previousStock : Int
  newStock : Int
  deriving Repr, DecidableEq

/-- A stock movement document. -/
structure MovementDoc where
  id : String
  type : String
  department : Option String := none
  supplier : Option String := none
  stockManager : String
  products : List MovementLine
  totalValue : Int
  totalItems : Int
  /-- canonical timestamp, epoch ms -/
  timestamp : Int
  deriving Repr, DecidableEq

/-- The document store: one association map per collection, plus the set of
existing client ids and the counter documents. -/
structure DB where
  products : AssocMap ProductDoc
  invoices : AssocMap InvoiceDoc
  movements : AssocMap MovementDoc
  clients : List String
  counters : AssocMap Nat
  deriving Repr, DecidableEq

/-- One staged product write of a Firestore batch: set field `q` to `newQ`,
and when `alsoQuantity` is true additionally set field `quantity`. -/
structure StagedProd where
  productId : String
  newQ : Int
  alsoQuantity : Bool
  deriving Repr, DecidableEq

/-- Apply one staged write.  The source only stages updates for documents it
has just fetched, so the missing-document case is unreachable there; it is
modelled as a no-op. -/
def applyProdUpdate (db : DB) (u : StagedProd) : DB :=
  match db.products.find u.productId with
  | none => db
  | some p =>
    { db with
      products := db.products.put u.productId
        { p with
          q := some u.newQ,
          quantity := if u.alsoQuantity then some u.newQ else p.quantity } }

/-- `batch.commit()`: apply all staged product writes, in staging order. -/
def commitProdUpdates (db : DB) (ups : List StagedProd) : DB :=
  ups.foldl applyProdUpdate db

/-- Per-item result shape returned by the bulk ledger operations. -/
structure OpResult where
  productId : String
  success : Bool
  oldQuantity : Option Int := none
  newQuantity : Option Int := none
  error : Option String := none
  deriving Repr, DecidableEq

/-- Request item of `addQuantitiesToProducts`. -/
structure AddItem where
  productId : String
  quantityToAdd : Int
  deriving Repr, DecidableEq

/-- Request item of `removeQuantitiesFromProducts`. -/
structure RemoveItem where
  productId : String
  quantityToRemove : Int
  deriving Repr, DecidableEq

/-- Loop body of `productModel.addQuantitiesToProducts`: every read happens
against the pre-commit database `db`; valid items stage a write of the `q`
field only, reading the current quantity as `currentProduct.q || 0`. -/
def addQuantLoop (db : DB) : List AddItem → List OpResult × List StagedProd
  | [] => ([], [])
  | it :: rest =>
    match db.products.find it.productId with
    | none =>
      ({ productId := it.productId, success := false,
         error := some "Product not found" } :: (addQuantLoop db rest).1,
       (addQuantLoop db rest).2)
    | some p =>
      let currentQuantity := jsOrI p.q 0
      let newQuantity := currentQuantity + it.quantityToAdd
      ({ productId := it.productId, success := true,
         oldQuantity := some currentQuantity,
         newQuantity := some newQuantity } :: (addQuantLoop db rest).1,
       ⟨it.productId, newQuantity, false⟩ :: (addQuantLoop db rest).2)

/-- `productModel.addQuantitiesToProducts`: per-item results, then one atomic
batch commit of the staged writes (failed items stage nothing but do not
prevent the commit of their siblings). -/
def addQuantitiesToProducts (db : DB) (items : List AddItem) :
    List OpResult × DB :=
  ((addQuantLoop db items).1, commitProdUpdates db (addQuantLoop db items).2)

/-- Loop body of `productModel.removeQuantitiesFromProducts`: reads
`currentProduct.q || currentProduct.quantity || 0`, fails the item when the
product is missing or stock is insufficient, and stages a write of both the
`q` and `quantity` fields otherwise. -/
def removeQuantLoop (db : DB) : List RemoveItem → List OpResult × List StagedProd
  | [] => ([], [])
  | it :: rest =>
    match db.products.find it.productId with
    | none =>
      ({ productId := it.productId, success := false,
         error := some "Product not found" } :: (removeQuantLoop db rest).1,
       (removeQuantLoop db rest).2)
    | some p =>
      let currentQuantity := jsOrI p.q (jsOrI p.quantity 0)
      if currentQuantity < it.quantityToRemove then
        ({ productId := it.productId, success := false,
           error := some ("Insufficient stock. Available: " ++ toString currentQuantity
             ++ ", Requested to remove: " ++ toString it.quantityToRemove) }
           :: (removeQuantLoop db rest).1,
         (removeQuantLoop db rest).2)
      else
        let newQuantity := currentQuantity - it.quantityToRemove
        ({ productId := it.productId, success := true,
           oldQuantity := some currentQuantity,
           newQuantity := some newQuantity } :: (removeQuantLoop db rest).1,
         ⟨it.productId, newQuantity, true⟩ :: (removeQuantLoop db rest).2)

/-- `productModel.removeQuantitiesFromProducts`: per-item results, then one
atomic batch commit of the staged writes — items that failed validation are
simply excluded from the committed batch. -/
def removeQuantitiesFromProducts (db : DB) (items : List RemoveItem) :
    List OpResult × DB :=
  ((removeQuantLoop db items).1, commitProdUpdates db (removeQuantLoop db items).2)

/-! ## Movement engine (`src/models/movementModel.js`) -/

/-- `String.padStart(w, '0')` on the decimal representation of `n`. -/
def padZeros (w : Nat) (n : Nat) : String :=
  let s := toString n
  if s.length < w then String.mk (List.replicate (w - s.length) '0') ++ s else s

/-- Non-degraded path of `getNextMovementId`: transactionally increment the
`stockMovements` counter document (starting at 1 when absent) and format as
`MOV` + width-6 zero-padded decimal.  The catch-fallback (timestamp id on
transaction failure) is the degraded mode, outside this embedding. -/
def getNextMovementId (db : DB) : String × DB :=
  let currentCount :=
    match db.counters.find "stockMovements" with
    | some c => c + 1
    | none => 1
  ("MOV" ++ padZeros 6 currentCount,
   { db with counters := db.counters.put "stockMovements" currentCount })

/-- A line of a `createStockMovement` request. -/
structure MovLineReq where
  productId : Option String := none
  quantity : Int
  price : Option Int := none
  deriving Repr, DecidableEq

/-- A `createStockMovement` request. -/
structure MovementReq where
  type : String
  products : List MovLineReq
  stockManager : String
  department : Option String := none
  supplier : Option String := none
  deriving Repr, DecidableEq

/-- A validated movement line as accumulated in `validProducts`. -/
structure ValidProduct where
  productId : String
  quantity : Int
  name : String
  unit : String
  previousStock : Int
  newStock : Int
  unitPrice : Int
  deriving Repr, DecidableEq

/-- The insufficient-stock validation message of `createStockMovement`. -/
def insufficientStockMsg (name : String) (available requested : Int) : String :=
  "Insufficient stock for " ++ name ++ ". Available: " ++ toString available
    ++ ", Requested: " ++ toString requested

/-- Classify one line of a `createStockMovement` request, exactly as the
source's per-product loop body: invalid id/quantity, missing product, and (for
distributions) insufficient stock produce an error string; otherwise the line
is snapshotted with `previousStock`/`newStock` computed from the product's
`quantity` field (`parseInt(productData.quantity || 0)`). -/
def movLineCheck (db : DB) (type : String) (p : MovLineReq) :
    Sum String ValidProduct :=
  if ¬ truthyS p.productId ∨ p.quantity ≤ 0 then
    Sum.inl ("Invalid product or quantity: " ++ (p.productId.getD ""))
  else
    match db.products.find (p.productId.getD "") with
    | none => Sum.inl ("Product not found: " ++ (p.productId.getD ""))
    | some productData =>
      let currentStock := jsOrI productData.quantity 0
      let unitPrice := jsOrI p.price (jsOrI productData.price 0)
      if type = "stock_in" then
        Sum.inr
          { productId := p.productId.getD "", quantity := p.quantity,
            name := productData.name, unit := productData.unit.getD "units",
            previousStock := currentStock,
            newStock := currentStock + p.quantity, unitPrice := unitPrice }
      else
        let newStock := currentStock - p.quantity
        if newStock < 0 then
          Sum.inl (insufficientStockMsg productData.name currentStock p.quantity)
        else
          Sum.inr
            { productId := p.productId.getD "", quantity := p.quantity,
              name := productData.name, unit := productData.unit.getD "units",
              previousStock := currentStock, newStock := newStock,
              unitPrice := unitPrice }

/-- The validation loop of `createStockMovement`: collects, in request order,
the error strings and the validated lines (every read sees the initial
database, since nothing has been written yet). -/
def movLinesLoop (db : DB) (type : String) :
    List MovLineReq → List String × List ValidProduct
  | [] => ([], [])
  | p :: rest =>
    match movLineCheck db type p with
    | Sum.inl e =>
      (e :: (movLinesLoop db type rest).1, (movLinesLoop db type rest).2)
    | Sum.inr v =>
      ((movLinesLoop db type rest).1, v :: (movLinesLoop db type rest).2)

/-- All validation errors `createStockMovement` collects for a request. -/
def movValidationErrors (db : DB) (data : MovementReq) : List String :=
  (movLinesLoop db data.type data.products).1

/-- Result shape of `createStockMovement`. -/
structure MovementCreateRes where
  success : Bool
  id : Option String := none
  message : String
  deriving Repr, DecidableEq

/-- `movementModel.createStockMovement`, taking the current time as epoch ms.
Shape validation, then per-line validation collecting all errors before any
mutation; on success a movement id is issued, the ledger deltas are applied
through the bulk product operations, and the movement document is stored with
full line snapshots.  Any thrown validation error is caught and returned as
`{success:false, message}` with the database untouched. -/
def createStockMovement (db : DB) (now : Int) (data : MovementReq) :
    MovementCreateRes × DB :=
  if ¬ (data.type = "stock_in" ∨ data.type = "distribution") then
    ({ success := false,
       message := "Valid movement type is required (stock_in or distribution)" }, db)
  else if data.products = [] then
    ({ success := false, message := "At least one product is required" }, db)
  else if jsTrim data.stockManager = "" then
    ({ success := false, message := "Stock manager is required" }, db)
  else if data.type = "distribution" ∧ ¬ truthyS data.department then
    ({ success := false, message := "Department is required for distributions" }, db)
  else if data.type = "stock_in" ∧ ¬ truthyS data.supplier then
    ({ success := false, message := "Supplier is required for stock in" }, db)
  else
    let validationErrors := (movLinesLoop db data.type data.products).1
    let validProducts := (movLinesLoop db data.type data.products).2
    if validationErrors ≠ [] then
      ({ success := false,
         message := "Validation errors: " ++ String.intercalate ", " validationErrors },
       db)
    else
      let movementId := (getNextMovementId db).1
      let db1 := (getNextMovementId db).2
      let db2 :=
        if data.type = "stock_in" then
          (addQuantitiesToProducts db1
            (validProducts.map fun p => ⟨p.productId, p.quantity⟩)).2
        else
          (removeQuantitiesFromProducts db1
            (validProducts.map fun p => ⟨p.productId, p.quantity⟩)).2
      let movementData : MovementDoc :=
        { id := movementId, type := data.type,
          department := data.department, supplier := data.supplier,
          stockManager := jsTrim data.stockManager,
          products := validProducts.map fun p =>
            { productId := p.productId, productName := p.name,
              quantity := p.quantity, unit := p.unit, unitPrice := p.unitPrice,
              total := p.unitPrice * p.quantity,
              previousStock := p.previousStock, newStock := p.newStock },
          totalValue :=
            if data.type = "stock_in" then
              (validProducts.map fun p => p.unitPrice * p.quantity).sum
            else 0,
          totalItems := (validProducts.map fun p => p.quantity).sum,
          timestamp := now }
      ({ success := true, id := some movementId,
         message :=
           if data.type = "stock_in" then "Stock added successfully"
           else "Stock distributed successfully" },
       { db2 with movements := db2.movements.put movementId movementData })

/-- Result shape of `deleteMovement` / `checkMovementDeletable`. -/
structure DeleteMovementRes where
  success : Bool
  message : String
  code : Option String := none
  errors : List String := []
  deriving Repr, DecidableEq

/-- The reversal results `deleteMovement` obtains from the ledger, together
with the database as mutated by that (already committed) bulk call. -/
def restorationResults (db : DB) (m : MovementDoc) : List OpResult × DB :=
  if m.type = "stock_in" then
    removeQuantitiesFromProducts db
      (m.products.map fun p => ⟨p.productId, p.quantity⟩)
  else
    addQuantitiesToProducts db
      (m.products.map fun p => ⟨p.productId, p.quantity⟩)

/-- `movementModel.deleteMovement`, taking the current time as epoch ms.
Missing movement → `MOVEMENT_NOT_FOUND`; age over 24 hours
(`timeDiff > 86400000` ms, the float `hoursDiff > 24` of the source) →
`MOVEMENT_TOO_OLD` with nothing mutated.  Otherwise the ledger reversal is
performed (and committed) through the bulk product operations; if any item of
the reversal failed, `STOCK_RESTORATION_FAILED` is returned and the movement
document is not deleted; on full success the movement document is deleted.
A movement of any other `type` leaves `stockRestorationResults` undefined in
the source, so `.filter` throws and the catch returns `INTERNAL_ERROR`. -/
def deleteMovement (db : DB) (now : Int) (id : String) :
    DeleteMovementRes × DB :=
  match db.movements.find id with
  | none =>
    ({ success := false, message := "Movement not found",
       code := some "MOVEMENT_NOT_FOUND",
       errors := ["Movement with ID " ++ id ++ " does not exist"] }, db)
  | some movement =>
    let timeDiff := now - movement.timestamp
    if timeDiff > 86400000 then
      ({ success := false, message := "Cannot delete movement older than 24 hours",
         code := some "MOVEMENT_TOO_OLD",
         errors := ["Only movements from the last 24 hours can be deleted"] }, db)
    else if ¬ (movement.type = "stock_in" ∨ movement.type = "distribution") then
      ({ success := false, message := "Failed to delete movement",
         code := some "INTERNAL_ERROR" }, db)
    else
      let results := (restorationResults db movement).1
      let db1 := (restorationResults db movement).2
      let failedOperations := results.filter fun r => !r.success
      if failedOperations ≠ [] then
        ({ success := false,
           message := "Failed to restore stock levels for some products",
           code := some "STOCK_RESTORATION_FAILED",
           errors := failedOperations.map fun op =>
             "Product " ++ op.productId ++ ": " ++ (op.error.getD "") }, db1)
      else
        ({ success := true,
           message := "Movement deleted successfully and stock levels restored" },
         { db1 with movements := db1.movements.del id })

/-! ## Invoice integration (`src/controllers/invoiceCon.js`) -/

/-- Parse a maximal leading run of decimal digits (the `(\d+)` capture,
greedy), continuing an accumulator. -/
def digitRunAux : Nat → List Char → Nat
  | acc, [] => acc
  | acc, c :: rest =>
    if c.isDigit then digitRunAux (acc * 10 + (c.toNat - 48)) rest else acc

/-- Try to match the regex `/(?:INV-|inv-)(\d+)/i` at the start of the given
character list: a case-insensitive `INV-` followed by at least one digit;
returns the numeric value of the maximal digit run (`parseInt(match[1], 10)`). -/
def invSuffixAt : List Char → Option Nat
  | a :: b :: c :: '-' :: e :: rest =>
    if a.toLower = 'i' ∧ b.toLower = 'n' ∧ c.toLower = 'v' ∧ e.isDigit then
      some (digitRunAux 0 (e :: rest))
    else none
  | _ => none

/-- Leftmost match of `/(?:INV-|inv-)(\d+)/i` in a character list. -/
def scanInvNum : List Char → Option Nat
  | [] => none
  | c :: rest =>
    match invSuffixAt (c :: rest) with
    | some n => some n
    | none => scanInvNum rest

/-- `invoice.id.match(/(?:INV-|inv-)(\d+)/i)`, as the captured number. -/
def invoiceIdNum (s : String) : Option Nat :=
  scanInvNum s.data

/-- One step of the `highestNumber` accumulation of `generateInvoiceId`:
keep the larger of the running maximum and the id's matched number. -/
def highestStep (h : Nat) (id : String) : Nat :=
  match invoiceIdNum id with
  | some n => if n > h then n else h
  | none => h

/-- The `highestNumber` accumulation of `generateInvoiceId` over the ids of
all existing invoices (0 when no id matches the pattern). -/
def highestInvNumber (ids : List String) : Nat :=
  ids.foldl highestStep 0

/-- Non-degraded path of `generateInvoiceId`: scan all existing invoice ids,
take the highest matched numeric suffix; if it is positive use `highest + 1`,
otherwise fall back to `count + 1`; with no invoices at all use 1.  Format
with prefix `INV-` and width-3 zero padding.  The catch-fallback (base-36
timestamp id) is the degraded mode, outside this embedding. -/
def generateInvoiceId (ids : List String) : String :=
  let nextCount :=
    if ids.length > 0 then
      let highestNumber := highestInvNumber ids
      if highestNumber > 0 then highestNumber + 1 else ids.length + 1
    else 1
  "INV-" ++ padZeros 3 nextCount

/-- A line of an invoice-creation/update request. -/
structure InvLineReq where
  productId : Option String := none
  name : String := ""
  quantity : Int := 0
  unitPrice : Option Int := none
  price : Option Int := none
  deriving Repr, DecidableEq

/-- An invoice-creation request body. -/
structure InvoiceReq where
  clientId : Option String := none
  clientName : Option String := none
  products : Option (List InvLineReq) := none
  remise : Option Int := none
  advance : Option Int := none
  deriving Repr, DecidableEq

/-- Per-line checks of `validateInvoiceData` (quantities and prices are typed
`Int` here, so the `typeof ... !== 'number'` guards reduce to the presence
check on `unitPrice` and the sign checks). -/
def validateInvLine (i : Nat) (p : InvLineReq) : List String :=
  (if ¬ truthyS p.productId then
    ["Product " ++ toString (i + 1) ++ ": productId is required"] else [])
  ++ (if p.name = "" then
    ["Product " ++ toString (i + 1) ++ ": name is required"] else [])
  ++ (if p.quantity ≤ 0 then
    ["Product " ++ toString (i + 1) ++ ": valid quantity is required"] else [])
  ++ (match p.unitPrice with
      | none => ["Product " ++ toString (i + 1) ++ ": valid unitPrice is required"]
      | some u =>
        if u < 0 then ["Product " ++ toString (i + 1) ++ ": valid unitPrice is required"]
        else [])

/-- The indexed per-line loop of `validateInvoiceData`. -/
def validateInvLines (i : Nat) : List InvLineReq → List String
  | [] => []
  | p :: rest => validateInvLine i p ++ validateInvLines (i + 1) rest

/-- `validateInvoiceData`, as the list of collected error strings. -/
def validateInvoiceData (data : InvoiceReq) : List String :=
  (if ¬ truthyS data.clientId then ["Client ID is required"] else [])
  ++ (if ¬ truthyS data.clientName then ["Client name is required"] else [])
  ++ (match data.products with
      | none => ["Products array is required"]
      | some [] => ["Products array is required"]
      | some ps => validateInvLines 0 ps)

/-- `invoiceCon.createInvoice`: validate, verify the client, compute totals
(`rest = totalAfterDiscount - advance`, unclamped), issue a scan-based id and
persist the invoice with status `"pending"`.  Thrown errors are rethrown
wrapped in `Failed to create invoice: ...` with the database untouched. -/
def createInvoice (db : DB) (data : InvoiceReq) :
    Except String InvoiceDoc × DB :=
  if validateInvoiceData data ≠ [] then
    (Except.error ("Failed to create invoice: Validation failed: "
      ++ String.intercalate ", " (validateInvoiceData data)), db)
  else if ¬ db.clients.contains (data.clientId.getD "") then
    (Except.error ("Failed to create invoice: Client "
      ++ data.clientId.getD "" ++ " not found"), db)
  else
    let ps := data.products.getD []
    let productsWithTotals := ps.map fun p =>
      ({ productId := p.productId, name := p.name, quantity := p.quantity,
         unitPrice := p.unitPrice, price := p.price,
         total := p.unitPrice.getD 0 * p.quantity } : InvoiceLine)
    let total := (productsWithTotals.map fun p => p.total).sum
    let remise := jsOrI data.remise 0
    let advance := jsOrI data.advance 0
    let totalAfterDiscount := total - remise
    let rest := totalAfterDiscount - advance
    let invoiceId := generateInvoiceId (db.invoices.map Prod.fst)
    let invoiceData : InvoiceDoc :=
      { invoiceId := invoiceId, clientId := data.clientId.getD "",
        clientName := data.clientName.getD "",
        products := productsWithTotals, remise := remise, advance := advance,
        total := total, totalAfterDiscount := totalAfterDiscount, rest := rest,
        status := "pending" }
    (Except.ok invoiceData,
     { db with invoices := db.invoices.put invoiceId invoiceData })

/-- Per-line validation of `createConfirmedInvoice` for a product that was
found: stock sufficiency (read as `product.q || product.quantity || 0`),
expiry, and positive price — all three reported, none aborts the line. -/
def cciLineErrors (now : Int) (item : InvLineReq) (product : ProductDoc) :
    List String :=
  let currentStock := jsOrI product.q (jsOrI product.quantity 0)
  (if currentStock < item.quantity then
    [insufficientStockMsg item.name currentStock item.quantity] else [])
  ++ (match product.expiryDate with
      | some e =>
        if e < now then
          ["Product \"" ++ item.name ++ "\" has expired (Expiry: " ++ toString e ++ ")"]
        else []
      | none => [])
  ++ (let productPrice := jsOrI product.price (jsOrI product.unitPrice 0)
      if productPrice ≤ 0 then
        ["Product \"" ++ item.name ++ "\" has invalid price: $" ++ toString productPrice]
      else [])

/-- The validation loop of `createConfirmedInvoice`: collects all error
strings and, alongside, the fetched product snapshot for every line whose
product exists (`productsWithDetails`, paired with its request line). -/
def cciLoop (db : DB) (now : Int) :
    List InvLineReq → List String × List (InvLineReq × ProductDoc)
  | [] => ([], [])
  | item :: rest =>
    match db.products.find (item.productId.getD "") with
    | none =>
      (("Product \"" ++ (if item.name ≠ "" then item.name else item.productId.getD "")
         ++ "\" not found") :: (cciLoop db now rest).1,
       (cciLoop db now rest).2)
    | some product =>
      (cciLineErrors now item product ++ (cciLoop db now rest).1,
       (item, product) :: (cciLoop db now rest).2)

/-- Result shape of `createConfirmedInvoice` (an HTTP-level handler). -/
structure ConfirmedInvRes where
  httpStatus : Nat
  success : Bool
  message : String
  errors : List String := []
  data : Option InvoiceDoc := none
  deriving Repr, DecidableEq

/-- `invoiceCon.createConfirmedInvoice`: validate the client and every line
(collecting all errors before any mutation), issue a scan-based id, compute
totals with `rest = totalAfterDiscount - advance` (unclamped) and
`status = rest == 0 ? "paid" : "not paid"`, then atomically batch the per-line
stock decrements (`q := currentStock - quantity`, stock read from the
pre-batch snapshots) together with the invoice document creation. -/
def createConfirmedInvoice (db : DB) (now : Int) (data : InvoiceReq) :
    ConfirmedInvRes × DB :=
  if ¬ truthyS data.clientId ∨ data.products = none ∨ data.products = some [] then
    ({ httpStatus := 400, success := false,
       message := "Client ID and products are required" }, db)
  else if ¬ db.clients.contains (data.clientId.getD "") then
    ({ httpStatus := 400, success := false,
       message := "Client " ++ data.clientId.getD "" ++ " not found" }, db)
  else if (cciLoop db now (data.products.getD [])).1 ≠ [] then
    ({ httpStatus := 400, success := false,
       message := "Product validation failed",
       errors := (cciLoop db now (data.products.getD [])).1 }, db)
  else
      let pairs := (cciLoop db now (data.products.getD [])).2
      let invoiceId := generateInvoiceId (db.invoices.map Prod.fst)
      let productsWithTotals := pairs.map fun ip =>
        let productPrice :=
          jsOrI ip.2.price (jsOrI ip.2.unitPrice (jsOrI ip.1.unitPrice 0))
        ({ productId := ip.1.productId, name := ip.1.name,
           quantity := ip.1.quantity, unitPrice := some productPrice,
           total := productPrice * ip.1.quantity } : InvoiceLine)
      let total := (productsWithTotals.map fun p => p.total).sum
      let remise := jsOrI data.remise 0
      let advance := jsOrI data.advance 0
      let totalAfterDiscount := total - remise
      let rest := totalAfterDiscount - advance
      let status := if rest = 0 then "paid" else "not paid"
      let staged := pairs.map fun ip =>
        (⟨ip.1.productId.getD "",
          jsOrI ip.2.q (jsOrI ip.2.quantity 0) - ip.1.quantity, false⟩ : StagedProd)
      let confirmedInvoice : InvoiceDoc :=
        { invoiceId := invoiceId, clientId := data.clientId.getD "",
          clientName := data.clientName.getD "",
          products := productsWithTotals, remise := remise, advance := advance,
          total := total, totalAfterDiscount := totalAfterDiscount, rest := rest,
          status := status, paid := some (rest = 0) }
      let db1 := commitProdUpdates db staged
      ({ httpStatus := 201, success := true,
         message := "Invoice created successfully with status: " ++ status,
         data := some confirmedInvoice },
       { db1 with invoices := db1.invoices.put invoiceId confirmedInvoice })

/-- Result shape of `confirmInvoice`. -/
structure ConfirmRes where
  success : Bool
  message : String
  invoiceId : String
  deriving Repr, DecidableEq

/-- The availability pre-check loop of `confirmInvoice`: first failure, if
any (stock is read as `product.q || product.quantity || 0`). -/
def confirmCheckLoop (db : DB) : List InvoiceLine → Option String
  | [] => none
  | item :: rest =>
    match db.products.find (item.productId.getD "") with
    | none => some ("Product " ++ item.productId.getD "" ++ " not found")
    | some product =>
      let currentStock := jsOrI product.q (jsOrI product.quantity 0)
      if currentStock < item.quantity then
        some ("Insufficient stock for " ++ item.name ++ ". Available: "
          ++ toString currentStock ++ ", Needed: " ++ toString item.quantity)
      else confirmCheckLoop db rest

/-- The batched stock decrements `confirmInvoice` stages: each line's product
is re-read (still pre-commit, hence the same snapshot) and `q` is set to
`currentStock - item.quantity`. -/
def confirmStaged (db : DB) (lines : List InvoiceLine) : List StagedProd :=
  lines.filterMap fun item =>
    (db.products.find (item.productId.getD "")).map fun product =>
      ⟨item.productId.getD "",
       jsOrI product.q (jsOrI product.quantity 0) - item.quantity, false⟩

/-- `invoiceCon.confirmInvoice`: rejects a missing id, a missing invoice, and
an invoice whose status is already exactly `"confirmed"`; re-validates stock
sufficiency for every line against current stock; then atomically batches the
per-line decrements with the status flip to `"confirmed"`.  Thrown errors are
rethrown wrapped in `Failed to confirm invoice: ...`, database untouched. -/
def confirmInvoice (db : DB) (id : String) : Except String ConfirmRes × DB :=
  if id = "" then
    (Except.error "Failed to confirm invoice: Invoice ID is required", db)
  else
    match db.invoices.find id with
    | none => (Except.error "Failed to confirm invoice: Invoice not found", db)
    | some invoice =>
      if invoice.status = "confirmed" then
        (Except.error "Failed to confirm invoice: Invoice already confirmed", db)
      else
        match confirmCheckLoop db invoice.products with
        | some e => (Except.error ("Failed to confirm invoice: " ++ e), db)
        | none =>
          let db1 := commitProdUpdates db (confirmStaged db invoice.products)
          (Except.ok { success := true, message := "Invoice confirmed", invoiceId := id },
           { db1 with
             invoices := db1.invoices.put id { invoice with status := "confirmed" } })

/-- One staged stock adjustment of `updateInvoice`. -/
structure StockUpdate where
  productId : String
  productName : String
  currentStock : Int
  quantityDifference : Int
  newStock : Int
  deriving Repr, DecidableEq

/-- The source's `where('name','==',name).limit(1)` product query: first
product document whose `name` field equals the given name. -/
def findByName : AssocMap ProductDoc → String → Option (String × ProductDoc)
  | [], _ => none
  | (k, p) :: rest, name =>
    if p.name = name then some (k, p) else findByName rest name

/-- Resolve one `updateInvoice` line to a product: by id when `productId` is
truthy, otherwise by name lookup. -/
def resolveUpdLine (db : DB) (p : InvLineReq) : Option (String × ProductDoc) :=
  if truthyS p.productId then
    (db.products.find (p.productId.getD "")).map fun d => (p.productId.getD "", d)
  else
    findByName db.products p.name

/-- The original line of the current invoice matched by `updateInvoice` for a
new line (`p.productId === productId || p.name === newProduct.name`). -/
def findOriginal : List InvoiceLine → String → String → Option InvoiceLine
  | [], _, _ => none
  | op :: rest, pid, name =>
    if op.productId = some pid ∨ op.name = name then some op
    else findOriginal rest pid name

/-- `updateInvoice`'s stock difference for a new line against the current
invoice: `newQuantity - originalQuantity`, with `originalQuantity = 0` when no
original line matches. -/
def updDiff (invoice : InvoiceDoc) (pid : String) (p : InvLineReq) : Int :=
  p.quantity - ((findOriginal invoice.products pid p.name).map
    (fun op => op.quantity)).getD 0

/-- Per-line body of the `updateInvoice` product loop, as its contributions:
error strings, the rebuilt invoice line, the staged stock update (only when
the quantity difference is non-zero), and the line's contribution to `total`.
Stock is read as `q || quantity || currentStock || 0`; a positive difference
larger than current stock is a validation error that skips the line; an
invalid price is an error but still books the line and its stock update. -/
def updLineProcess (db : DB) (invoice : InvoiceDoc) (p : InvLineReq) :
    List String × List InvoiceLine × List StockUpdate × Int :=
  if p.name = "" then (["Product name is required"], [], [], 0)
  else
    match resolveUpdLine db p with
    | none =>
      ((if truthyS p.productId then ["Product \"" ++ p.name ++ "\" not found"]
        else ["Product \"" ++ p.name ++ "\" not found in database"]), [], [], 0)
    | some (productId, productData) =>
      let currentStock :=
        jsOrI productData.q (jsOrI productData.quantity
          (jsOrI productData.currentStock 0))
      let quantityDifference := updDiff invoice productId p
      if quantityDifference > 0 ∧ currentStock < quantityDifference then
        (["Insufficient stock for " ++ p.name ++ ". Available: "
           ++ toString currentStock ++ ", Needed additional: "
           ++ toString quantityDifference], [], [], 0)
      else
        let productPrice :=
          jsOrI p.unitPrice (jsOrI p.price (jsOrI productData.price 0))
        let priceErrs :=
          if productPrice ≤ 0 then
            ["Product \"" ++ p.name ++ "\" has invalid price: $" ++ toString productPrice]
          else []
        let line : InvoiceLine :=
          { productId := some productId, name := p.name, quantity := p.quantity,
            unitPrice := some productPrice, price := some productPrice,
            total := productPrice * p.quantity }
        let ups :=
          if quantityDifference ≠ 0 then
            [(⟨productId, p.name, currentStock, quantityDifference,
               currentStock - quantityDifference⟩ : StockUpdate)]
          else []
        (priceErrs, [line], ups, productPrice * p.quantity)

/-- The `updateInvoice` product loop: concatenates, in request order, the
per-line contributions (all reads see the pre-commit database). -/
def updLinesLoop (db : DB) (invoice : InvoiceDoc) :
    List InvLineReq → List String × List InvoiceLine × List StockUpdate × Int
  | [] => ([], [], [], 0)
  | p :: rest =>
    let c := updLineProcess db invoice p
    let r := updLinesLoop db invoice rest
    (c.1 ++ r.1, c.2.1 ++ r.2.1, c.2.2.1 ++ r.2.2.1, c.2.2.2 + r.2.2.2)

/-- An `updateInvoice` request body. -/
structure InvoiceUpdateReq where
  products : Option (List InvLineReq) := none
  remise : Option Int := none
  advance : Option Int := none
  deriving Repr, DecidableEq

/-- Result shape of `updateInvoice`. -/
structure UpdateInvoiceRes where
  success : Bool
  message : String
  invoiceId : String
  stockUpdates : Nat
  deriving Repr, DecidableEq

/-- The commit tail of `updateInvoice`: recompute the financial fields with
`rest = max(0, totalAfterDiscount - advance)` and
`status = rest == 0 ? "paid" : "not paid"`, then commit the staged stock
writes (`q := newStock`, a direct set) together with the invoice update in
one atomic batch.  (When `remise`/`advance` are not supplied the source skips
rewriting those fields; the skipped write equals the current value, so the
stored document is the same.) -/
def updCommit (db : DB) (invoiceId : String) (data : InvoiceUpdateReq)
    (currentInvoice : InvoiceDoc) (productsWithTotals : List InvoiceLine)
    (stockUpdates : List StockUpdate) (total : Int) :
    Except String UpdateInvoiceRes × DB :=
  let remise := data.remise.getD currentInvoice.remise
  let advance := data.advance.getD currentInvoice.advance
  let totalAfterDiscount := total - remise
  let rest := max 0 (totalAfterDiscount - advance)
  let status := if rest = 0 then "paid" else "not paid"
  let updated : InvoiceDoc :=
    { currentInvoice with
      products := productsWithTotals, total := total,
      totalAfterDiscount := totalAfterDiscount, rest := rest,
      status := status, paid := some (rest = 0),
      remise := remise, advance := advance }
  let db1 := commitProdUpdates db
    (stockUpdates.map fun u => ⟨u.productId, u.newStock, false⟩)
  (Except.ok
    { success := true,
      message := "Invoice updated successfully! Stock quantities have been adjusted.",
      invoiceId := invoiceId, stockUpdates := stockUpdates.length },
   { db1 with invoices := db1.invoices.put invoiceId updated })

/-- `invoiceCon.updateInvoice`: normalizes the id, re-diffs product lines
against the current invoice when `products` is supplied (aborting on any
validation error before any write), then runs the `updCommit` tail. -/
def updateInvoice (db : DB) (id : String) (data : InvoiceUpdateReq) :
    Except String UpdateInvoiceRes × DB :=
  if id = "" then
    (Except.error "Failed to update invoice: Invoice ID is required", db)
  else
    match db.invoices.find (jsTrim (jsToUpper id)) with
    | none =>
      (Except.error ("Failed to update invoice: Invoice " ++ jsTrim (jsToUpper id)
        ++ " not found"), db)
    | some currentInvoice =>
      match data.products with
      | none =>
        updCommit db (jsTrim (jsToUpper id)) data currentInvoice
          currentInvoice.products [] currentInvoice.total
      | some ps =>
        if ps = [] then
          (Except.error "Failed to update invoice: Products array cannot be empty", db)
        else if (updLinesLoop db currentInvoice ps).1 ≠ [] then
          (Except.error ("Failed to update invoice: Product validation failed: "
            ++ String.intercalate "; " (updLinesLoop db currentInvoice ps).1), db)
        else
          updCommit db (jsTrim (jsToUpper id)) data currentInvoice
            (updLinesLoop db currentInvoice ps).2.1
            (updLinesLoop db currentInvoice ps).2.2.1
            (updLinesLoop db currentInvoice ps).2.2.2

/-- Result shape of `deleteInvoice`. -/
structure DeleteInvoiceRes where
  success : Bool
  message : String
  invoiceId : String
  deriving Repr, DecidableEq

/-- The stock-restoration writes `deleteInvoice` stages into its batch: for a
`"confirmed"` invoice, `q := (q || quantity || 0) + item.quantity` for every
line whose product exists; empty otherwise. -/
def deleteInvoiceBatch (db : DB) (invoice : InvoiceDoc) : List StagedProd :=
  if invoice.status = "confirmed" then
    invoice.products.filterMap fun item =>
      (db.products.find (item.productId.getD "")).map fun product =>
        ⟨item.productId.getD "",
         jsOrI product.q (jsOrI product.quantity 0) + item.quantity, false⟩
  else []

/-- `invoiceCon.deleteInvoice`, exactly as written in the source: it builds
the restoration batch (`deleteInvoiceBatch`) for a confirmed invoice, but the
batch is never committed — the only write performed is the invoice document
deletion through `invoiceModel.deleteInvoice`. -/
def deleteInvoice (db : DB) (id : String) : Except String DeleteInvoiceRes × DB :=
  if id = "" then
    (Except.error "Failed to delete invoice: Invoice ID is required", db)
  else
    match db.invoices.find id with
    | none => (Except.error "Failed to delete invoice: Invoice not found", db)
    | some invoice =>
      let _batch := deleteInvoiceBatch db invoice
      (Except.ok { success := true, message := "Invoice deleted", invoiceId := id },
       { db with invoices := db.invoices.del id })

/-! ## Basic lemmas about the store model -/

theorem AssocMap.find_put_self {α : Type} (m : AssocMap α) (k : String) (v : α) :
    (m.put k v).find k = some v := by
  induction m with
  | nil => simp [AssocMap.put, AssocMap.find]
  | cons kv rest ih =>
    obtain ⟨k1, v1⟩ := kv
    by_cases h : k1 = k
    · simp [AssocMap.put, AssocMap.find, h]
    · simp [AssocMap.put, AssocMap.find, h, ih]

theorem AssocMap.find_put_ne {α : Type} (m : AssocMap α) (k v : _) (k' : String)
    (h : k ≠ k') : (AssocMap.put (α := α) m k v).find k' = m.find k' := by
  induction m with
  | nil => simp [AssocMap.put, AssocMap.find, h]
  | cons kv rest ih =>
    obtain ⟨k1, v1⟩ := kv
    by_cases h1 : k1 = k
    · subst h1
      simp [AssocMap.put, AssocMap.find, h]
    · simp [AssocMap.put, AssocMap.find, h1, ih]

theorem commitProdUpdates_nil (db : DB) : commitProdUpdates db [] = db := rfl

theorem commitProdUpdates_cons (db : DB) (u : StagedProd) (rest : List StagedProd) :
    commitProdUpdates db (u :: rest) = commitProdUpdates (applyProdUpdate db u) rest := rfl

theorem applyProdUpdate_movements (db : DB) (u : StagedProd) :
    (applyProdUpdate db u).movements = db.movements := by
  unfold applyProdUpdate
  split <;> rfl

theorem applyProdUpdate_invoices (db : DB) (u : StagedProd) :
    (applyProdUpdate db u).invoices = db.invoices := by
  unfold applyProdUpdate
  split <;> rfl

theorem commitProdUpdates_movements (db : DB) (ups : List StagedProd) :
    (commitProdUpdates db ups).movements = db.movements := by
  induction ups generalizing db with
  | nil => rfl
  | cons u rest ih =>
    rw [commitProdUpdates_cons, ih, applyProdUpdate_movements]

theorem commitProdUpdates_invoices (db : DB) (ups : List StagedProd) :
    (commitProdUpdates db ups).invoices = db.invoices := by
  induction ups generalizing db with
  | nil => rfl
  | cons u rest ih =>
    rw [commitProdUpdates_cons, ih, applyProdUpdate_invoices]

theorem applyProdUpdate_find_ne (db : DB) (u : StagedProd) (pid : String)
    (h : u.productId ≠ pid) :
    (applyProdUpdate db u).products.find pid = db.products.find pid := by
  unfold applyProdUpdate
  split
  · rfl
  · simpa using AssocMap.find_put_ne db.products u.productId _ pid h

theorem commitProdUpdates_find_notMem (db : DB) (ups : List StagedProd) (pid : String)
    (h : pid ∉ ups.map StagedProd.productId) :
    (commitProdUpdates db ups).products.find pid = db.products.find pid := by
  induction ups generalizing db with
  | nil => rfl
  | cons u rest ih =>
    simp only [List.map_cons, List.mem_cons] at h
    push_neg at h
    rw [commitProdUpdates_cons, ih _ h.2,
      applyProdUpdate_find_ne _ _ _ (fun he => h.1 he.symm)]

theorem commitProdUpdates_find_mem (db : DB) (ups : List StagedProd)
    (hnd : (ups.map StagedProd.productId).Nodup) (u : StagedProd) (hu : u ∈ ups)
    (p : ProductDoc) (hp : db.products.find u.productId = some p) :
    (commitProdUpdates db ups).products.find u.productId =
      some { p with
        q := some u.newQ,
        quantity := if u.alsoQuantity then some u.newQ else p.quantity } := by
  induction ups generalizing db with
  | nil => cases hu
  | cons v rest ih =>
    rw [commitProdUpdates_cons]
    simp only [List.map_cons, List.nodup_cons] at hnd
    rcases List.mem_cons.mp hu with rfl | hmem
    · rw [commitProdUpdates_find_notMem _ _ _ hnd.1]
      simp [applyProdUpdate, hp, AssocMap.find_put_self]
    · have hne : v.productId ≠ u.productId := by
        intro he
        exact hnd.1 (he ▸ List.mem_map_of_mem StagedProd.productId hmem)
      refine ih (applyProdUpdate db v) hnd.2 hmem ?_
      rw [applyProdUpdate_find_ne _ _ _ hne]
      exact hp

/-! ## C1 — deleting a confirmed invoice -/

/-- C1: the claim says `deleteInvoice` restores stock for a confirmed
invoice before deleting the document.  In the source the restoration writes
are staged into a batch that is never committed, so a successful delete
leaves every product document exactly as it was — for confirmed invoices
just as for non-confirmed ones — while the invoice document is removed. -/
theorem deleteInvoice_never_restores_stock (db : DB) (id : String)
    (res : DeleteInvoiceRes) (db' : DB)
    (h : deleteInvoice db id = (Except.ok res, db')) :
    db'.products = db.products ∧ db'.invoices = db.invoices.del id := by
  unfold deleteInvoice at h
  split at h
  · injection h with h1 h2
    exact Except.noConfusion h1
  · split at h
    · injection h with h1 h2
      exact Except.noConfusion h1
    · injection h with h1 h2
      subst h2
      exact ⟨rfl, rfl⟩

/-- Failing input for C1: a confirmed invoice of 5 apples whose product has
stock 10.  After the delete the stock is still 10, not the claimed 15. -/
def exDeleteDb : DB :=
  { products := [("p1", { name := "apples", q := some 10 })],
    invoices := [("INV-001",
      { invoiceId := "INV-001", clientId := "c1", clientName := "Ali",
        products := [{ productId := some "p1", name := "apples", quantity := 5,
                       total := 50 }],
        remise := 0, advance := 0, total := 50, totalAfterDiscount := 50,
        rest := 50, status := "confirmed" })],
    movements := [], clients := ["c1"], counters := [] }

/-- Witness for C1: the universal no-restoration theorem applied at the
concrete confirmed-invoice database, where the staged (uncommitted)
restoration batch is in fact non-trivial. -/
theorem deleteInvoice_never_restores_stock_witness :
    (deleteInvoice exDeleteDb "INV-001").2.products = exDeleteDb.products ∧
    (deleteInvoice exDeleteDb "INV-001").2.invoices = exDeleteDb.invoices.del "INV-001" :=
  deleteInvoice_never_restores_stock exDeleteDb "INV-001"
    { success := true, message := "Invoice deleted", invoiceId := "INV-001" }
    (deleteInvoice exDeleteDb "INV-001").2 rfl

/-! ## C9 — 24-hour deletion window -/

/-- C9: a movement whose timestamp is more than 24 hours (86400000 ms)
before the current time is rejected by `deleteMovement` with code
`MOVEMENT_TOO_OLD`, and the database — products and movement document
alike — is completely unchanged. -/
theorem deleteMovement_too_old (db : DB) (now : Int) (id : String) (m : MovementDoc)
    (hm : db.movements.find id = some m)
    (hage : now - m.timestamp > 86400000) :
    (deleteMovement db now id).1.success = false ∧
    (deleteMovement db now id).1.code = some "MOVEMENT_TOO_OLD" ∧
    (deleteMovement db now id).2 = db := by
  unfold deleteMovement
  rw [hm]
  simp [hage]

/-- A stock-in movement recorded at epoch time 0, for the C9 witness. -/
def exOldMovementDb : DB :=
  { products := [("pa", { name := "a", q := some 10 })],
    invoices := [],
    movements := [("MOV000009",
      { id := "MOV000009", type := "stock_in", supplier := some "s",
        stockManager := "alice",
        products := [{ productId := "pa", productName := "a", quantity := 3,
                       unit := "units", unitPrice := 1, total := 3,
                       previousStock := 7, newStock := 10 }],
        totalValue := 3, totalItems := 3, timestamp := 0 })],
    clients := [], counters := [] }

/-- Witness for C9: deleting the movement 24 hours + 1 ms after its
timestamp fails with `MOVEMENT_TOO_OLD` and changes nothing. -/
theorem deleteMovement_too_old_witness :
    (deleteMovement exOldMovementDb 86400001 "MOV000009").1.success = false ∧
    (deleteMovement exOldMovementDb 86400001 "MOV000009").1.code = some "MOVEMENT_TOO_OLD" ∧
    (deleteMovement exOldMovementDb 86400001 "MOV000009").2 = exOldMovementDb :=
  deleteMovement_too_old exOldMovementDb 86400001 "MOV000009"
    { id := "MOV000009", type := "stock_in", supplier := some "s",
      stockManager := "alice",
      products := [{ productId := "pa", productName := "a", quantity := 3,
                     unit := "units", unitPrice := 1, total := 3,
                     previousStock := 7, newStock := 10 }],
      totalValue := 3, totalItems := 3, timestamp := 0 }
    rfl (by decide)

/-! ## C10 — scan-based invoice id generation -/

theorem highestStep_ge (h : Nat) (a : String) : h ≤ highestStep h a := by
  unfold highestStep
  split
  · split <;> omega
  · omega

theorem highestFold_ge_start (ids : List String) (h : Nat) :
    h ≤ ids.foldl highestStep h := by
  induction ids generalizing h with
  | nil => exact Nat.le_refl h
  | cons a rest ih =>
    rw [List.foldl_cons]
    exact Nat.le_trans (highestStep_ge h a) (ih (highestStep h a))

theorem highestFold_ge_mem (ids : List String) (s : String) (n : Nat)
    (hn : invoiceIdNum s = some n) :
    ∀ h : Nat, s ∈ ids → n ≤ ids.foldl highestStep h := by
  induction ids with
  | nil => intro h hs; cases hs
  | cons a rest ih =>
    intro h hs
    rw [List.foldl_cons]
    rcases List.mem_cons.mp hs with rfl | hmem
    · refine Nat.le_trans ?_ (highestFold_ge_start rest _)
      have hstep : highestStep h s = if n > h then n else h := by
        unfold highestStep
        rw [hn]
      rw [hstep]
      split <;> omega
    · exact ih (highestStep h a) hmem


theorem highestFold_attained (ids : List String) (h : Nat) :
    ids.foldl highestStep h = h ∨
      ∃ s ∈ ids, invoiceIdNum s = some (ids.foldl highestStep h) := by
  induction ids generalizing h with
  | nil => exact Or.inl rfl
  | cons a rest ih =>
    rw [List.foldl_cons]
    rcases ih (highestStep h a) with heq | ⟨s, hs, hsn⟩
    · rw [heq]
      cases hinv : invoiceIdNum a with
      | none =>
        left
        unfold highestStep
        rw [hinv]
      | some n =>
        by_cases hgt : n > h
        · right
          refine ⟨a, List.mem_cons_self a rest, ?_⟩
          rw [hinv]
          unfold highestStep
          rw [hinv]
          simp [hgt]
        · left
          unfold highestStep
          rw [hinv]
          simp [hgt]
    · exact Or.inr ⟨s, List.mem_cons_of_mem a hs, hsn⟩

/-- C10 counterexample: the id `INV-0` does match the numeric-suffix pattern,
with suffix 0, so by the claim the next id would be `INV-001`; the code's
`highestNumber > 0` test treats a 0 suffix like no match and falls back to
`count + 1`, producing `INV-002`. -/
theorem generateInvoiceId_zero_suffix_cex :
    invoiceIdNum "INV-0" = some 0 ∧
    generateInvoiceId ["INV-0"] = "INV-002" ∧
    "INV-002" ≠ "INV-" ++ padZeros 3 (0 + 1) := by
  refine ⟨rfl, rfl, ?_⟩
  decide

/-- C10 (amended): on the non-degraded path `generateInvoiceId` returns
`INV-` plus the zero-padded width-3 decimal of `N + 1`, where `N` is the
maximum numeric suffix matched (case-insensitively, pattern `INV-<digits>`)
across all existing ids when that maximum is positive, and the count of
existing invoices when no id has a positive numeric suffix; with no invoices
at all the result is `INV-001`.  `highestInvNumber` is indeed that maximum:
it bounds every matched suffix and, when positive, is attained by some id. -/
theorem generateInvoiceId_next_number (ids : List String) :
    generateInvoiceId ids =
      "INV-" ++ padZeros 3
        (if ids = [] then 1
         else if 0 < highestInvNumber ids then highestInvNumber ids + 1
         else ids.length + 1) ∧
    (∀ s ∈ ids, ∀ n, invoiceIdNum s = some n → n ≤ highestInvNumber ids) ∧
    (0 < highestInvNumber ids →
      ∃ s ∈ ids, invoiceIdNum s = some (highestInvNumber ids)) ∧
    generateInvoiceId [] = "INV-001" := by
  refine ⟨?_, ?_, ?_, rfl⟩
  · unfold generateInvoiceId
    cases ids with
    | nil => rfl
    | cons a rest => simp [highestInvNumber]
  · intro s hs n hn
    exact highestFold_ge_mem ids s n hn 0 hs
  · intro hpos
    rcases highestFold_attained ids 0 with heq | hat
    · rw [highestInvNumber] at hpos
      omega
    · exact hat

/-- Witness for C10 (amended): with existing ids `INV-007` and `x`, the
generator yields `INV-008`, the suffix 7 is bounded by the maximum, and the
maximum 7 is attained. -/
theorem generateInvoiceId_next_number_witness :
    generateInvoiceId ["INV-007", "x"] =
      "INV-" ++ padZeros 3
        (if (["INV-007", "x"] : List String) = [] then 1
         else if 0 < highestInvNumber ["INV-007", "x"] then
           highestInvNumber ["INV-007", "x"] + 1
         else (["INV-007", "x"] : List String).length + 1) ∧
    7 ≤ highestInvNumber ["INV-007", "x"] ∧
    ∃ s ∈ (["INV-007", "x"] : List String),
      invoiceIdNum s = some (highestInvNumber ["INV-007", "x"]) :=
  ⟨(generateInvoiceId_next_number ["INV-007", "x"]).1,
   (generateInvoiceId_next_number ["INV-007", "x"]).2.1 "INV-007"
     (List.mem_cons_self _ _) 7 rfl,
   (generateInvoiceId_next_number ["INV-007", "x"]).2.2.1 (by decide)⟩

/-! ## C2 — movement deletion with a failing reversal line -/

theorem restorationResults_movements (db : DB) (m : MovementDoc) :
    (restorationResults db m).2.movements = db.movements := by
  unfold restorationResults
  split
  · simp [removeQuantitiesFromProducts, commitProdUpdates_movements]
  · simp [addQuantitiesToProducts, commitProdUpdates_movements]

/-- A stock-in movement of two lines whose reversal partially fails: product
`pa` exists with stock 10, product `pb` has been deleted since. -/
def exPartialMov : MovementDoc :=
  { id := "MOV000002", type := "stock_in", supplier := some "s",
    stockManager := "alice",
    products := [
      { productId := "pa", productName := "a", quantity := 3, unit := "units",
        unitPrice := 1, total := 3, previousStock := 7, newStock := 10 },
      { productId := "pb", productName := "b", quantity := 5, unit := "units",
        unitPrice := 1, total := 5, previousStock := 0, newStock := 5 }],
    totalValue := 8, totalItems := 8, timestamp := 0 }

/-- Database for the C2 scenario. -/
def exPartialDb : DB :=
  { products := [("pa", { name := "a", q := some 10 })],
    invoices := [],
    movements := [("MOV000002", exPartialMov)],
    clients := [], counters := [] }

/-- C2 counterexample: deleting `MOV000002` reports
`STOCK_RESTORATION_FAILED` and keeps the movement document, as the claim
says, but the reversal of the succeeding line `pa` IS committed: its stock
drops from 10 to 7, so "every product's quantity is unchanged" is false. -/
theorem deleteMovement_partial_reversal_cex :
    (deleteMovement exPartialDb 0 "MOV000002").1.code = some "STOCK_RESTORATION_FAILED" ∧
    (deleteMovement exPartialDb 0 "MOV000002").2.movements.find "MOV000002" = some exPartialMov ∧
    (deleteMovement exPartialDb 0 "MOV000002").2.products.find "pa" =
      some { name := "a", q := some 7, quantity := some 7 } ∧
    exPartialDb.products.find "pa" = some { name := "a", q := some 10 } :=
  ⟨rfl, rfl, rfl, rfl⟩

/-- C2 (amended): when any reversal line item fails, `deleteMovement` returns
failure with code `STOCK_RESTORATION_FAILED` and the movement document is not
deleted — but the reversal is partially committed: the database ends in the
state produced by the bulk ledger call, in which every line item that
individually succeeded has its product quantity updated (only failing items
stage no write). -/
theorem deleteMovement_restoration_failure (db : DB) (now : Int) (id : String)
    (m : MovementDoc)
    (hm : db.movements.find id = some m)
    (hage : ¬ now - m.timestamp > 86400000)
    (htype : m.type = "stock_in" ∨ m.type = "distribution")
    (hfail : ∃ r ∈ (restorationResults db m).1, r.success = false) :
    (deleteMovement db now id).1.success = false ∧
    (deleteMovement db now id).1.code = some "STOCK_RESTORATION_FAILED" ∧
    (deleteMovement db now id).2.movements = db.movements ∧
    (deleteMovement db now id).2.products = (restorationResults db m).2.products := by
  obtain ⟨r, hr, hrs⟩ := hfail
  have hne : ((restorationResults db m).1.filter fun x => !x.success) ≠ [] :=
    List.ne_nil_of_mem (List.mem_filter.mpr ⟨hr, by simp [hrs]⟩)
  have hnt : ¬ ¬ (m.type = "stock_in" ∨ m.type = "distribution") := not_not_intro htype
  have hmv : (restorationResults db m).2.movements = db.movements :=
    restorationResults_movements db m
  unfold deleteMovement
  rw [hm]
  simp only [hage, hnt, hne, if_false, if_true, ite_false, ite_true]
  simp [hage, hnt, hne, hmv]

/-- Witness for C2 (amended): the theorem applied to the two-line stock-in
movement whose second line's product is missing. -/
theorem deleteMovement_restoration_failure_witness :
    (deleteMovement exPartialDb 0 "MOV000002").1.success = false ∧
    (deleteMovement exPartialDb 0 "MOV000002").1.code = some "STOCK_RESTORATION_FAILED" ∧
    (deleteMovement exPartialDb 0 "MOV000002").2.movements = exPartialDb.movements ∧
    (deleteMovement exPartialDb 0 "MOV000002").2.products =
      (restorationResults exPartialDb exPartialMov).2.products :=
  deleteMovement_restoration_failure exPartialDb 0 "MOV000002" exPartialMov
    rfl (by decide) (Or.inl rfl) (by decide)

/-! ## C3 — stock-in postcondition -/

/-- A product created through `createProduct` carries only the `quantity`
field (value 10), never `q`; this is the C3 failing input. -/
def exStockInDb : DB :=
  { products := [("p1", { name := "apples", quantity := some 10 })],
    invoices := [], movements := [], clients := [], counters := [] }

/-- A stock-in movement request adding 5 units of `p1`. -/
def exStockInReq : MovementReq :=
  { type := "stock_in", stockManager := "alice", supplier := some "s",
    products := [{ productId := some "p1", quantity := 5 }] }

/-- C3: the persisted movement line satisfies
`newStock = previousStock + quantity` (10 + 5 = 15, computed from the
`quantity` field), but the ledger write `addQuantitiesToProducts` reads the
`q` field (`q || 0` = 0) and persists `q = 5`, leaving `quantity = 10`
untouched — so no persisted on-hand counter equals the line's `newStock`. -/
theorem stockIn_snapshot_vs_persisted_mismatch :
    (createStockMovement exStockInDb 0 exStockInReq).1.success = true ∧
    ((createStockMovement exStockInDb 0 exStockInReq).2.movements.find "MOV000001").map
      (fun m => m.products.map fun l => (l.previousStock, l.quantity, l.newStock)) =
      some [(10, 5, 15)] ∧
    (createStockMovement exStockInDb 0 exStockInReq).2.products.find "p1" =
      some { name := "apples", q := some 5, quantity := some 10 } ∧
    ¬ ((5 : Int) = 15 ∨ (10 : Int) = 15) :=
  ⟨by decide, by decide, by decide, by decide⟩

/-! ## C6 — distribution rejected on insufficient stock -/

theorem movLinesLoop_error_mem (db : DB) (type : String) (ps : List MovLineReq)
    (p : MovLineReq) (hp : p ∈ ps) (e : String)
    (he : movLineCheck db type p = Sum.inl e) :
    e ∈ (movLinesLoop db type ps).1 := by
  induction ps with
  | nil => cases hp
  | cons a rest ih =>
    rcases List.mem_cons.mp hp with rfl | hmem
    · unfold movLinesLoop
      rw [he]
      exact List.mem_cons_self _ _
    · unfold movLinesLoop
      cases hc : movLineCheck db type a with
      | inl e1 => exact List.mem_cons_of_mem e1 (ih hmem)
      | inr v => exact ih hmem

/-- C6: for every well-formed distribution request in which some line has a
truthy product id, a positive quantity, and an existing product whose
`previousStock - quantity` is negative, `createStockMovement` rejects the
whole movement, changes nothing in the database, reports the collected
validation errors of all lines joined into one message, and that message's
error list contains an insufficient-stock error. -/
theorem distribution_insufficient_rejected (db : DB) (now : Int) (data : MovementReq)
    (htype : data.type = "distribution")
    (hmgr : jsTrim data.stockManager ≠ "")
    (hdep : truthyS data.department = true)
    (hline : ∃ p ∈ data.products, truthyS p.productId = true ∧ 0 < p.quantity ∧
      ∃ prod, db.products.find (p.productId.getD "") = some prod ∧
        jsOrI prod.quantity 0 - p.quantity < 0) :
    (createStockMovement db now data).1.success = false ∧
    (createStockMovement db now data).2 = db ∧
    (createStockMovement db now data).1.message =
      "Validation errors: " ++ String.intercalate ", " (movValidationErrors db data) ∧
    ∃ name avail req, avail - req < 0 ∧
      insufficientStockMsg name avail req ∈ movValidationErrors db data := by
  obtain ⟨p, hp, hpid, hq, prod, hfind, hneg⟩ := hline
  have hcheck : movLineCheck db data.type p =
      Sum.inl (insufficientStockMsg prod.name (jsOrI prod.quantity 0) p.quantity) := by
    unfold movLineCheck
    rw [htype, hfind]
    have hc1 : ¬ (¬ truthyS p.productId = true ∨ p.quantity ≤ 0) := by
      rw [hpid]
      simp
      omega
    rw [if_neg hc1]
    simp only []
    rw [if_neg (by decide : ¬ ("distribution" : String) = "stock_in")]
    rw [if_pos hneg]
  have hmem : insufficientStockMsg prod.name (jsOrI prod.quantity 0) p.quantity ∈
      movValidationErrors db data :=
    movLinesLoop_error_mem db data.type data.products p hp _ hcheck
  have hne : movValidationErrors db data ≠ [] := List.ne_nil_of_mem hmem
  have hts : ¬ ¬ (data.type = "stock_in" ∨ data.type = "distribution") :=
    not_not_intro (Or.inr htype)
  have hpe : data.products ≠ [] := List.ne_nil_of_mem hp
  have hnd : ¬ (data.type = "distribution" ∧ ¬ truthyS data.department = true) := by
    rw [hdep]
    simp
  have hns : ¬ (data.type = "stock_in" ∧ ¬ truthyS data.supplier = true) := by
    rw [htype]
    simp
  have hrun : createStockMovement db now data =
      ({ success := false,
         message := "Validation errors: "
           ++ String.intercalate ", " (movValidationErrors db data) }, db) := by
    unfold createStockMovement
    rw [if_neg hts, if_neg hpe, if_neg hmgr, if_neg hnd, if_neg hns,
      if_pos (show (movLinesLoop db data.type data.products).1 ≠ [] from hne)]
    rfl
  refine ⟨?_, ?_, ?_, prod.name, jsOrI prod.quantity 0, p.quantity, hneg, hmem⟩ <;>
    rw [hrun]

/-- A distribution request asking for 20 units of a product holding 10. -/
def exDistReq : MovementReq :=
  { type := "distribution", stockManager := "alice", department := some "kitchen",
    products := [{ productId := some "p1", quantity := 20 }] }

/-- Witness for C6: distributing 20 units from a stock of 10 is rejected
whole, with the insufficient-stock error in the collected message, and the
database unchanged. -/
theorem distribution_insufficient_rejected_witness :
    (createStockMovement exStockInDb 0 exDistReq).1.success = false ∧
    (createStockMovement exStockInDb 0 exDistReq).2 = exStockInDb ∧
    (createStockMovement exStockInDb 0 exDistReq).1.message =
      "Validation errors: "
        ++ String.intercalate ", " (movValidationErrors exStockInDb exDistReq) ∧
    ∃ name avail req, avail - req < 0 ∧
      insufficientStockMsg name avail req ∈ movValidationErrors exStockInDb exDistReq :=
  distribution_insufficient_rejected exStockInDb 0 exDistReq rfl (by decide) rfl
    ⟨{ productId := some "p1", quantity := 20 }, by decide, by decide, by decide,
     { name := "apples", quantity := some 10 }, by decide, by decide⟩

/-! ## C4 — rest / status discipline across the invoice flows -/

theorem paid_status_cases (c : Prop) [Decidable c] :
    (if c then "paid" else "not paid") = "paid" ∨
    (if c then "paid" else "not paid") = "not paid" := by
  split
  · exact Or.inl rfl
  · exact Or.inr rfl

theorem createInvoice_ok_spec (db : DB) (data : InvoiceReq) (doc : InvoiceDoc)
    (db' : DB) (h : createInvoice db data = (Except.ok doc, db')) :
    doc.rest = doc.total - doc.remise - doc.advance ∧
    doc.status = "pending" ∧
    db'.invoices.find doc.invoiceId = some doc := by
  unfold createInvoice at h
  split at h
  · injection h with h1 h2
    exact Except.noConfusion h1
  · split at h
    · injection h with h1 h2
      exact Except.noConfusion h1
    · injection h with h1 h2
      subst h2
      injection h1 with h1
      subst h1
      exact ⟨rfl, rfl, AssocMap.find_put_self _ _ _⟩

theorem cci_success_spec (db : DB) (now : Int) (data : InvoiceReq)
    (res : ConfirmedInvRes) (db' : DB)
    (h : createConfirmedInvoice db now data = (res, db'))
    (hs : res.success = true) :
    ∃ doc, res.data = some doc ∧ db'.invoices.find doc.invoiceId = some doc ∧
      doc.rest = doc.total - doc.remise - doc.advance ∧
      doc.status = (if doc.rest = 0 then "paid" else "not paid") ∧
      doc.paid = some (decide (doc.rest = 0)) ∧
      (doc.status = "paid" ∨ doc.status = "not paid") := by
  unfold createConfirmedInvoice at h
  split at h
  · injection h with h1 h2
    subst h1
    exact Bool.noConfusion hs
  · split at h
    · injection h with h1 h2
      subst h1
      exact Bool.noConfusion hs
    · split at h
      · injection h with h1 h2
        subst h1
        exact Bool.noConfusion hs
      · injection h with h1 h2
        subst h1
        subst h2
        refine ⟨_, rfl, AssocMap.find_put_self _ _ _, rfl, rfl, rfl, ?_⟩
        exact paid_status_cases _

theorem updCommit_ok_spec (db : DB) (invoiceId : String) (data : InvoiceUpdateReq)
    (inv : InvoiceDoc) (pts : List InvoiceLine) (sus : List StockUpdate)
    (total : Int) :
    ∃ doc, (updCommit db invoiceId data inv pts sus total).2.invoices.find invoiceId
        = some doc ∧
      doc.total = total ∧
      doc.remise = data.remise.getD inv.remise ∧
      doc.advance = data.advance.getD inv.advance ∧
      doc.rest = max 0 (doc.total - doc.remise - doc.advance) ∧
      doc.status = (if doc.rest = 0 then "paid" else "not paid") ∧
      doc.paid = some (decide (doc.rest = 0)) ∧
      doc.products = pts :=
  ⟨_, AssocMap.find_put_self _ _ _, rfl, rfl, rfl, rfl, rfl, rfl, rfl⟩

theorem updateInvoice_ok_spec (db : DB) (id : String) (data : InvoiceUpdateReq)
    (res : UpdateInvoiceRes) (db' : DB)
    (h : updateInvoice db id data = (Except.ok res, db')) :
    ∃ doc, db'.invoices.find (jsTrim (jsToUpper id)) = some doc ∧
      doc.rest = max 0 (doc.total - doc.remise - doc.advance) ∧
      doc.status = (if doc.rest = 0 then "paid" else "not paid") ∧
      doc.paid = some (decide (doc.rest = 0)) := by
  unfold updateInvoice at h
  split at h
  · injection h with h1 h2
    exact Except.noConfusion h1
  · split at h
    · injection h with h1 h2
      exact Except.noConfusion h1
    · split at h
      · have hdb : db' = (updCommit db (jsTrim (jsToUpper id)) data _ _ [] _).2 :=
          (congrArg Prod.snd h).symm
        subst hdb
        obtain ⟨doc, hfind, _, _, _, hrest, hstat, hpaid, _⟩ :=
          updCommit_ok_spec db (jsTrim (jsToUpper id)) data _ _ [] _
        exact ⟨doc, hfind, hrest, hstat, hpaid⟩
      · split at h
        · injection h with h1 h2
          exact Except.noConfusion h1
        · split at h
          · injection h with h1 h2
            exact Except.noConfusion h1
          · have hdb : db' = (updCommit db (jsTrim (jsToUpper id)) data _ _ _ _).2 :=
              (congrArg Prod.snd h).symm
            subst hdb
            obtain ⟨doc, hfind, _, _, _, hrest, hstat, hpaid, _⟩ :=
              updCommit_ok_spec db (jsTrim (jsToUpper id)) data _ _ _ _
            exact ⟨doc, hfind, hrest, hstat, hpaid⟩

/-- C4 (amended): `updateInvoice` persists
`rest = max(0, total - remise - advance)` with status `"paid"` iff
`rest == 0`; `createConfirmedInvoice` persists the UNCLAMPED
`rest = total - remise - advance` (possibly negative) with status `"paid"`
iff that rest is 0; `createInvoice` also persists the unclamped rest and
always status `"pending"`. -/
theorem invoice_rest_and_status_discipline :
    (∀ db data doc db', createInvoice db data = (Except.ok doc, db') →
      doc.rest = doc.total - doc.remise - doc.advance ∧ doc.status = "pending" ∧
      db'.invoices.find doc.invoiceId = some doc) ∧
    (∀ db now data res db', createConfirmedInvoice db now data = (res, db') →
      res.success = true →
      ∃ doc, res.data = some doc ∧ db'.invoices.find doc.invoiceId = some doc ∧
        doc.rest = doc.total - doc.remise - doc.advance ∧
        doc.status = (if doc.rest = 0 then "paid" else "not paid") ∧
        doc.paid = some (decide (doc.rest = 0))) ∧
    (∀ db id data res db', updateInvoice db id data = (Except.ok res, db') →
      ∃ doc, db'.invoices.find (jsTrim (jsToUpper id)) = some doc ∧
        doc.rest = max 0 (doc.total - doc.remise - doc.advance) ∧
        doc.status = (if doc.rest = 0 then "paid" else "not paid") ∧
        doc.paid = some (decide (doc.rest = 0))) :=
  ⟨fun db data doc db' h => createInvoice_ok_spec db data doc db' h,
   fun db now data res db' h hs =>
     (cci_success_spec db now data res db' h hs).imp fun _ hdoc =>
       ⟨hdoc.1, hdoc.2.1, hdoc.2.2.1, hdoc.2.2.2.1, hdoc.2.2.2.2.1⟩,
   fun db id data res db' h => updateInvoice_ok_spec db id data res db' h⟩

/-- Client-only database for the C4 counterexample. -/
def exCreateDb : DB :=
  { products := [], invoices := [], movements := [], clients := ["c1"], counters := [] }

/-- An invoice request whose advance (20) exceeds the total (10). -/
def exCreateReq : InvoiceReq :=
  { clientId := some "c1", clientName := some "Ali",
    products := some [{ productId := some "p1", name := "x", quantity := 1,
                        unitPrice := some 10 }],
    advance := some 20 }

/-- C4 counterexample: `createInvoice` persists `rest = -10` where the claim
demands `max(0, 10 - 0 - 20) = 0`. -/
theorem invoice_rest_unclamped_cex :
    ((createInvoice exCreateDb exCreateReq).2.invoices.find "INV-001").map
      (fun d => (d.total, d.remise, d.advance, d.rest)) = some (10, 0, 20, -10) ∧
    ¬ ((-10 : Int) = max 0 (10 - 0 - 20)) :=
  ⟨by decide, by decide⟩

/-- The invoice document `createInvoice` produces for `exCreateReq`. -/
def exCreateDoc : InvoiceDoc :=
  { invoiceId := "INV-001", clientId := "c1", clientName := "Ali",
    products := [{ productId := some "p1", name := "x", quantity := 1,
                   unitPrice := some 10, total := 10 }],
    remise := 0, advance := 20, total := 10, totalAfterDiscount := 10,
    rest := -10, status := "pending" }

/-- Database of the C4 `updateInvoice` witness: an update that touches only
`advance` on a confirmed invoice. -/
def exUpdDb : DB :=
  { products := [("p1", { name := "apples", q := some 2, price := some 10 })],
    invoices := [("INV-001",
      { invoiceId := "INV-001", clientId := "c1", clientName := "Ali",
        products := [{ productId := some "p1", name := "apples", quantity := 3,
                       unitPrice := some 10, total := 30 }],
        remise := 0, advance := 0, total := 30, totalAfterDiscount := 30,
        rest := 30, status := "confirmed" })],
    movements := [], clients := ["c1"], counters := [] }

/-- Product database of the C4/C5 `createConfirmedInvoice` witness. -/
def exCCIDb : DB :=
  { products := [("p1", { name := "apples", q := some 5, price := some 10 })],
    invoices := [], movements := [], clients := ["c1"], counters := [] }

/-- Request of the C4/C5 `createConfirmedInvoice` witness (advance 20 over a
total of 10, so the persisted rest is -10). -/
def exCCIReq : InvoiceReq :=
  { clientId := some "c1", clientName := some "Ali",
    products := some [{ productId := some "p1", name := "apples", quantity := 1 }],
    advance := some 20 }

/-- Witness for C4: all three flows applied at concrete inputs. -/
theorem invoice_rest_and_status_discipline_witness :
    (exCreateDoc.rest = exCreateDoc.total - exCreateDoc.remise - exCreateDoc.advance ∧
     exCreateDoc.status = "pending" ∧
     (createInvoice exCreateDb exCreateReq).2.invoices.find exCreateDoc.invoiceId =
       some exCreateDoc) ∧
    (∃ doc, (createConfirmedInvoice exCCIDb 0 exCCIReq).1.data = some doc ∧
      (createConfirmedInvoice exCCIDb 0 exCCIReq).2.invoices.find doc.invoiceId = some doc ∧
      doc.rest = doc.total - doc.remise - doc.advance ∧
      doc.status = (if doc.rest = 0 then "paid" else "not paid") ∧
      doc.paid = some (decide (doc.rest = 0))) ∧
    (∃ doc, (updateInvoice exUpdDb "inv-001" { advance := some 30 }).2.invoices.find
        (jsTrim (jsToUpper "inv-001")) = some doc ∧
      doc.rest = max 0 (doc.total - doc.remise - doc.advance) ∧
      doc.status = (if doc.rest = 0 then "paid" else "not paid") ∧
      doc.paid = some (decide (doc.rest = 0))) :=
  ⟨invoice_rest_and_status_discipline.1 exCreateDb exCreateReq exCreateDoc
     (createInvoice exCreateDb exCreateReq).2 rfl,
   invoice_rest_and_status_discipline.2.1 exCCIDb 0 exCCIReq
     (createConfirmedInvoice exCCIDb 0 exCCIReq).1
     (createConfirmedInvoice exCCIDb 0 exCCIReq).2 rfl (by decide),
   invoice_rest_and_status_discipline.2.2 exUpdDb "inv-001" { advance := some 30 }
     { success := true,
       message := "Invoice updated successfully! Stock quantities have been adjusted.",
       invoiceId := "INV-001", stockUpdates := 0 }
     (updateInvoice exUpdDb "inv-001" { advance := some 30 }).2 rfl⟩

/-! ## C5 — createConfirmedInvoice output passes confirmInvoice's check -/

theorem confirmCheckLoop_none (db : DB) (lines : List InvoiceLine)
    (hsuff : ∀ item ∈ lines, ∃ p,
      db.products.find (item.productId.getD "") = some p ∧
      item.quantity ≤ jsOrI p.q (jsOrI p.quantity 0)) :
    confirmCheckLoop db lines = none := by
  induction lines with
  | nil => rfl
  | cons item rest ih =>
    obtain ⟨p, hp, hq⟩ := hsuff item (List.mem_cons_self _ _)
    unfold confirmCheckLoop
    simp only [hp]
    rw [if_neg (by omega : ¬ jsOrI p.q (jsOrI p.quantity 0) < item.quantity)]
    exact ih fun i hi => hsuff i (List.mem_cons_of_mem _ hi)

theorem confirmStaged_pids_sublist (db : DB) (lines : List InvoiceLine) :
    ((confirmStaged db lines).map StagedProd.productId).Sublist
      (lines.map fun l => l.productId.getD "") := by
  induction lines with
  | nil => simp [confirmStaged]
  | cons item rest ih =>
    simp only [confirmStaged] at ih ⊢
    cases h : db.products.find (item.productId.getD "") with
    | none =>
      rw [List.filterMap_cons, h]
      simp only [Option.map_none', List.map_cons]
      exact ih.cons _
    | some p =>
      rw [List.filterMap_cons, h]
      simp only [Option.map_some', List.map_cons]
      exact ih.cons₂ _

theorem confirmInvoice_spec (db : DB) (id : String) (inv : InvoiceDoc)
    (hid : id ≠ "")
    (hinv : db.invoices.find id = some inv)
    (hst : inv.status ≠ "confirmed")
    (hsuff : ∀ item ∈ inv.products, ∃ p,
      db.products.find (item.productId.getD "") = some p ∧
      item.quantity ≤ jsOrI p.q (jsOrI p.quantity 0))
    (hnd : (inv.products.map fun l => l.productId.getD "").Nodup) :
    (confirmInvoice db id).1 =
      Except.ok { success := true, message := "Invoice confirmed", invoiceId := id } ∧
    (confirmInvoice db id).2.invoices.find id = some { inv with status := "confirmed" } ∧
    ∀ item ∈ inv.products, ∀ p, db.products.find (item.productId.getD "") = some p →
      (confirmInvoice db id).2.products.find (item.productId.getD "") =
        some { p with q := some (jsOrI p.q (jsOrI p.quantity 0) - item.quantity) } := by
  have hchk := confirmCheckLoop_none db inv.products hsuff
  have hrun : confirmInvoice db id =
      (Except.ok { success := true, message := "Invoice confirmed", invoiceId := id },
       { commitProdUpdates db (confirmStaged db inv.products) with
         invoices := (commitProdUpdates db (confirmStaged db inv.products)).invoices.put
           id { inv with status := "confirmed" } }) := by
    unfold confirmInvoice
    rw [if_neg hid]
    simp only [hinv]
    rw [if_neg hst]
    simp only [hchk]
  refine ⟨by rw [hrun], by rw [hrun]; exact AssocMap.find_put_self _ _ _, ?_⟩
  intro item hitem p hp
  rw [hrun]
  have hnd2 : ((confirmStaged db inv.products).map StagedProd.productId).Nodup :=
    List.Nodup.sublist (confirmStaged_pids_sublist db inv.products) hnd
  have hu : (⟨item.productId.getD "",
      jsOrI p.q (jsOrI p.quantity 0) - item.quantity, false⟩ : StagedProd) ∈
      confirmStaged db inv.products := by
    refine List.mem_filterMap.mpr ⟨item, hitem, ?_⟩
    rw [hp]
    rfl
  simpa using commitProdUpdates_find_mem db (confirmStaged db inv.products) hnd2 _ hu p hp

/-- C5: an invoice created through `createConfirmedInvoice` is persisted with
status `"paid"` or `"not paid"` — never `"confirmed"`, the only status
`confirmInvoice`'s already-confirmed check rejects — and `confirmInvoice` on
any invoice whose status is not exactly `"confirmed"`, when every line has
sufficient current stock, succeeds and decrements each line's product
quantity (a second time, for such invoices, since their stock was already
debited at creation) and sets the status to `"confirmed"`. -/
theorem createConfirmed_then_confirm_decrements_again :
    (∀ db now data res db', createConfirmedInvoice db now data = (res, db') →
      res.success = true →
      ∃ doc, res.data = some doc ∧ db'.invoices.find doc.invoiceId = some doc ∧
        (doc.status = "paid" ∨ doc.status = "not paid") ∧ doc.status ≠ "confirmed") ∧
    (∀ db id inv, id ≠ "" → db.invoices.find id = some inv →
      inv.status ≠ "confirmed" →
      (∀ item ∈ inv.products, ∃ p,
        db.products.find (item.productId.getD "") = some p ∧
        item.quantity ≤ jsOrI p.q (jsOrI p.quantity 0)) →
      (inv.products.map fun l => l.productId.getD "").Nodup →
      (confirmInvoice db id).1 =
        Except.ok { success := true, message := "Invoice confirmed", invoiceId := id } ∧
      (confirmInvoice db id).2.invoices.find id =
        some { inv with status := "confirmed" } ∧
      ∀ item ∈ inv.products, ∀ p, db.products.find (item.productId.getD "") = some p →
        (confirmInvoice db id).2.products.find (item.productId.getD "") =
          some { p with q := some (jsOrI p.q (jsOrI p.quantity 0) - item.quantity) }) := by
  constructor
  · intro db now data res db' h hs
    obtain ⟨doc, h1, h2, _, _, _, hps⟩ := cci_success_spec db now data res db' h hs
    refine ⟨doc, h1, h2, hps, ?_⟩
    rcases hps with h3 | h3 <;> rw [h3] <;> decide
  · intro db id inv hid hinv hst hsuff hnd
    exact confirmInvoice_spec db id inv hid hinv hst hsuff hnd

/-- The database state right after the C5 `createConfirmedInvoice` run. -/
def exConfirmDb : DB := (createConfirmedInvoice exCCIDb 0 exCCIReq).2

/-- The invoice document that run persists (status `"not paid"`). -/
def exConfirmInv : InvoiceDoc :=
  { invoiceId := "INV-001", clientId := "c1", clientName := "Ali",
    products := [{ productId := some "p1", name := "apples", quantity := 1,
                   unitPrice := some 10, total := 10 }],
    remise := 0, advance := 20, total := 10, totalAfterDiscount := 10,
    rest := -10, status := "not paid", paid := some false }

/-- Witness for C5: the created invoice has status `"not paid"`, and
confirming it immediately afterwards succeeds and decrements the product
from 4 to 3 — a second debit on top of the one made at creation (5 to 4). -/
theorem createConfirmed_then_confirm_decrements_again_witness :
    (∃ doc, (createConfirmedInvoice exCCIDb 0 exCCIReq).1.data = some doc ∧
      exConfirmDb.invoices.find doc.invoiceId = some doc ∧
      (doc.status = "paid" ∨ doc.status = "not paid") ∧ doc.status ≠ "confirmed") ∧
    ((confirmInvoice exConfirmDb "INV-001").1 =
       Except.ok { success := true, message := "Invoice confirmed",
                   invoiceId := "INV-001" } ∧
     (confirmInvoice exConfirmDb "INV-001").2.invoices.find "INV-001" =
       some { exConfirmInv with status := "confirmed" } ∧
     ∀ item ∈ exConfirmInv.products, ∀ p,
       exConfirmDb.products.find (item.productId.getD "") = some p →
       (confirmInvoice exConfirmDb "INV-001").2.products.find (item.productId.getD "") =
         some { p with q := some (jsOrI p.q (jsOrI p.quantity 0) - item.quantity) }) :=
  ⟨createConfirmed_then_confirm_decrements_again.1 exCCIDb 0 exCCIReq
     (createConfirmedInvoice exCCIDb 0 exCCIReq).1 exConfirmDb rfl (by decide),
   createConfirmed_then_confirm_decrements_again.2 exConfirmDb "INV-001" exConfirmInv
     (by decide) rfl (by decide)
     (fun item hitem => by
       simp only [exConfirmInv, List.mem_singleton] at hitem
       subst hitem
       exact ⟨{ name := "apples", q := some 4, price := some 10 }, rfl, by decide⟩)
     (by decide)⟩

/-! ## C8 — updateInvoice erases the pending/confirmed lifecycle -/

/-- C8: every committed `updateInvoice` run — including one that changes only
`remise`/`advance` — overwrites the stored status with `"paid"` (iff
`rest == 0`) or `"not paid"` and sets the `paid` flag accordingly, so a
previously `"pending"` or `"confirmed"` invoice loses that lifecycle state;
afterwards `deleteInvoice`'s `status == "confirmed"` restoration condition
cannot hold, and its restoration batch is empty. -/
theorem updateInvoice_overwrites_lifecycle (db : DB) (id : String)
    (data : InvoiceUpdateReq) (res : UpdateInvoiceRes) (db' : DB)
    (h : updateInvoice db id data = (Except.ok res, db')) :
    ∃ doc, db'.invoices.find (jsTrim (jsToUpper id)) = some doc ∧
      doc.status = (if doc.rest = 0 then "paid" else "not paid") ∧
      doc.paid = some (decide (doc.rest = 0)) ∧
      doc.status ≠ "confirmed" ∧
      deleteInvoiceBatch db' doc = [] := by
  obtain ⟨doc, hfind, _, hstat, hpaid⟩ := updateInvoice_ok_spec db id data res db' h
  have hne : doc.status ≠ "confirmed" := by
    rw [hstat]
    split <;> decide
  refine ⟨doc, hfind, hstat, hpaid, hne, ?_⟩
  unfold deleteInvoiceBatch
  rw [if_neg hne]

/-- Witness for C8: updating only `advance` on the confirmed invoice of
`exUpdDb` flips its status to the paid/not-paid lifecycle. -/
theorem updateInvoice_overwrites_lifecycle_witness :
    ∃ doc, (updateInvoice exUpdDb "inv-001" { advance := some 30 }).2.invoices.find
        (jsTrim (jsToUpper "inv-001")) = some doc ∧
      doc.status = (if doc.rest = 0 then "paid" else "not paid") ∧
      doc.paid = some (decide (doc.rest = 0)) ∧
      doc.status ≠ "confirmed" ∧
      deleteInvoiceBatch (updateInvoice exUpdDb "inv-001" { advance := some 30 }).2
        doc = [] :=
  updateInvoice_overwrites_lifecycle exUpdDb "inv-001" { advance := some 30 }
    { success := true,
      message := "Invoice updated successfully! Stock quantities have been adjusted.",
      invoiceId := "INV-001", stockUpdates := 0 }
    (updateInvoice exUpdDb "inv-001" { advance := some 30 }).2 rfl

/-! ## C7 — updateInvoice stock re-diffing -/

/-- The staged stock adjustment of one `updateInvoice` line, stated the way
the spec describes it: resolve the product, read its stock, compute
`diff = newQuantity - originalQuantity` (`updDiff`, 0 when no original line
matches), abort staging when `diff > 0` exceeds current stock, and stage a
direct set of `currentStock - diff` exactly when `diff ≠ 0`. -/
def stagedUpdOf (db : DB) (inv : InvoiceDoc) (p : InvLineReq) :
    Option StockUpdate :=
  if p.name = "" then none
  else
    match resolveUpdLine db p with
    | none => none
    | some pd =>
      let currentStock :=
        jsOrI pd.2.q (jsOrI pd.2.quantity (jsOrI pd.2.currentStock 0))
      let quantityDifference := updDiff inv pd.1 p
      if quantityDifference > 0 ∧ currentStock < quantityDifference then none
      else if quantityDifference ≠ 0 then
        some ⟨pd.1, p.name, currentStock, quantityDifference,
          currentStock - quantityDifference⟩
      else none

theorem updLineProcess_staged (db : DB) (inv : InvoiceDoc) (p : InvLineReq) :
    (updLineProcess db inv p).2.2.1 = (stagedUpdOf db inv p).toList := by
  unfold updLineProcess stagedUpdOf
  split
  · rfl
  · generalize resolveUpdLine db p = r
    cases r with
    | none => rfl
    | some pd =>
      obtain ⟨pid, d⟩ := pd
      dsimp only
      split
      · rfl
      · split <;> split <;> rfl

theorem updLinesLoop_staged (db : DB) (inv : InvoiceDoc) (ps : List InvLineReq) :
    (updLinesLoop db inv ps).2.2.1 = ps.filterMap (stagedUpdOf db inv) := by
  induction ps with
  | nil => rfl
  | cons p rest ih =>
    rw [show (updLinesLoop db inv (p :: rest)).2.2.1 =
        (updLineProcess db inv p).2.2.1 ++ (updLinesLoop db inv rest).2.2.1 from rfl]
    rw [updLineProcess_staged, ih, List.filterMap_cons]
    cases stagedUpdOf db inv p <;> rfl

theorem stagedUpdOf_some_spec (db : DB) (inv : InvoiceDoc) (p : InvLineReq)
    (u : StockUpdate) (h : stagedUpdOf db inv p = some u) :
    u.productName = p.name ∧
    u.quantityDifference = updDiff inv u.productId p ∧
    u.quantityDifference ≠ 0 ∧
    u.newStock = u.currentStock - u.quantityDifference := by
  unfold stagedUpdOf at h
  split at h
  · exact Option.noConfusion h
  · split at h
    · exact Option.noConfusion h
    · dsimp only at h
      split at h
      · exact Option.noConfusion h
      · split at h
        · injection h with h1
          subst h1
          exact ⟨rfl, rfl, by assumption, rfl⟩
        · exact Option.noConfusion h

theorem updLinesLoop_error_of_mem (db : DB) (inv : InvoiceDoc)
    (ps : List InvLineReq) (p : InvLineReq) (hp : p ∈ ps)
    (hne : (updLineProcess db inv p).1 ≠ []) :
    (updLinesLoop db inv ps).1 ≠ [] := by
  induction ps with
  | nil => cases hp
  | cons a rest ih =>
    intro hcontra
    rw [show (updLinesLoop db inv (a :: rest)).1 =
        (updLineProcess db inv a).1 ++ (updLinesLoop db inv rest).1 from rfl] at hcontra
    rcases List.mem_cons.mp hp with rfl | hmem
    · exact hne (List.append_eq_nil.mp hcontra).1
    · exact ih hmem (List.append_eq_nil.mp hcontra).2

/-- C7: for `updateInvoice` with replaced products, (1) the staged stock
updates are exactly the resolved lines whose computed difference
`diff = newQuantity - matchedOriginalQuantity` (0 when no original line
matches) is non-zero, each staging the direct set `currentStock - diff`;
(2) any resolved line with `diff > 0` and `currentStock < diff` makes the
whole update abort with a validation error and no database write at all; and
(3) a successful run commits exactly those staged writes to the product
store together with the invoice document update. -/
theorem updateInvoice_diff_semantics (db : DB) (id : String)
    (data : InvoiceUpdateReq) (inv : InvoiceDoc) (ps : List InvLineReq)
    (hid : id ≠ "")
    (hinv : db.invoices.find (jsTrim (jsToUpper id)) = some inv)
    (hps : data.products = some ps) :
    ((updLinesLoop db inv ps).2.2.1 = ps.filterMap (stagedUpdOf db inv) ∧
     (∀ u ∈ (updLinesLoop db inv ps).2.2.1, ∃ p ∈ ps,
        u.productName = p.name ∧
        u.quantityDifference = updDiff inv u.productId p ∧
        u.quantityDifference ≠ 0 ∧
        u.newStock = u.currentStock - u.quantityDifference) ∧
     (∀ pid q, findOriginal inv.products pid q.name = none →
        updDiff inv pid q = q.quantity)) ∧
    ((∃ p ∈ ps, p.name ≠ "" ∧ ∃ upid ud, resolveUpdLine db p = some (upid, ud) ∧
        0 < updDiff inv upid p ∧
        jsOrI ud.q (jsOrI ud.quantity (jsOrI ud.currentStock 0)) < updDiff inv upid p) →
      (∃ e, (updateInvoice db id data).1 = Except.error e) ∧
      (updateInvoice db id data).2 = db) ∧
    (∀ res, (updateInvoice db id data).1 = Except.ok res →
      (updateInvoice db id data).2.products =
        (commitProdUpdates db ((updLinesLoop db inv ps).2.2.1.map
          fun u => ⟨u.productId, u.newStock, false⟩)).products ∧
      ∃ doc, (updateInvoice db id data).2.invoices.find (jsTrim (jsToUpper id)) =
          some doc ∧ doc.products = (updLinesLoop db inv ps).2.1) := by
  refine ⟨⟨updLinesLoop_staged db inv ps, ?_, ?_⟩, ?_, ?_⟩
  · intro u hu
    rw [updLinesLoop_staged db inv ps] at hu
    obtain ⟨p, hp, hpu⟩ := List.mem_filterMap.mp hu
    obtain ⟨h1, h2, h3, h4⟩ := stagedUpdOf_some_spec db inv p u hpu
    exact ⟨p, hp, h1, h2, h3, h4⟩
  · intro pid q h
    unfold updDiff
    rw [h]
    simp
  · rintro ⟨p, hp, hname, upid, ud, hres, hdiff, hcur⟩
    have hproc : (updLineProcess db inv p).1 ≠ [] := by
      unfold updLineProcess
      rw [if_neg hname]
      simp only [hres]
      rw [if_pos ⟨hdiff, hcur⟩]
      exact List.cons_ne_nil _ _
    have hlerr : (updLinesLoop db inv ps).1 ≠ [] :=
      updLinesLoop_error_of_mem db inv ps p hp hproc
    have hemp : ps ≠ [] := List.ne_nil_of_mem hp
    have hrun : updateInvoice db id data =
        (Except.error ("Failed to update invoice: Product validation failed: "
          ++ String.intercalate "; " (updLinesLoop db inv ps).1), db) := by
      unfold updateInvoice
      rw [if_neg hid]
      simp only [hinv, hps]
      rw [if_neg hemp, if_pos hlerr]
    exact ⟨⟨_, by rw [hrun]⟩, by rw [hrun]⟩
  · intro res hres
    by_cases hemp : ps = []
    · exfalso
      have hrun : updateInvoice db id data =
          (Except.error "Failed to update invoice: Products array cannot be empty", db) := by
        unfold updateInvoice
        rw [if_neg hid]
        simp only [hinv, hps]
        rw [if_pos hemp]
      rw [hrun] at hres
      exact Except.noConfusion hres
    · by_cases herr : (updLinesLoop db inv ps).1 = []
      · have hrun : updateInvoice db id data =
            updCommit db (jsTrim (jsToUpper id)) data inv
              (updLinesLoop db inv ps).2.1 (updLinesLoop db inv ps).2.2.1
              (updLinesLoop db inv ps).2.2.2 := by
          unfold updateInvoice
          rw [if_neg hid]
          simp only [hinv, hps]
          rw [if_neg hemp, if_neg (not_not_intro herr)]
        rw [hrun]
        obtain ⟨doc, hfind, _, _, _, _, _, _, hprods⟩ :=
          updCommit_ok_spec db (jsTrim (jsToUpper id)) data inv
            (updLinesLoop db inv ps).2.1 (updLinesLoop db inv ps).2.2.1
            (updLinesLoop db inv ps).2.2.2
        exact ⟨rfl, doc, hfind, hprods⟩
      · exfalso
        have hrun : updateInvoice db id data =
            (Except.error ("Failed to update invoice: Product validation failed: "
              ++ String.intercalate "; " (updLinesLoop db inv ps).1), db) := by
          unfold updateInvoice
          rw [if_neg hid]
          simp only [hinv, hps]
          rw [if_neg hemp, if_pos herr]
        rw [hrun] at hres
        exact Except.noConfusion hres

/-- The invoice document stored in `exUpdDb`. -/
def exUpdInv : InvoiceDoc :=
  { invoiceId := "INV-001", clientId := "c1", clientName := "Ali",
    products := [{ productId := some "p1", name := "apples", quantity := 3,
                   unitPrice := some 10, total := 30 }],
    remise := 0, advance := 0, total := 30, totalAfterDiscount := 30,
    rest := 30, status := "confirmed" }

/-- An edit of the invoice down to 1 unit (diff = -2, stages 2 - (-2) = 4). -/
def exUpdGoodReq : InvoiceUpdateReq :=
  { products := some [{ productId := some "p1", name := "apples", quantity := 1,
                        unitPrice := some 10 }] }

/-- An edit of the invoice up to 10 units (diff = 7 > stock 2: must abort). -/
def exUpdBadReq : InvoiceUpdateReq :=
  { products := some [{ productId := some "p1", name := "apples", quantity := 10,
                        unitPrice := some 10 }] }

/-- Witness for C7: the theorem applied to a decreasing edit (all three
parts) and, separately, its abort part applied to an increasing edit whose
difference exceeds the current stock. -/
theorem updateInvoice_diff_semantics_witness :
    (((updLinesLoop exUpdDb exUpdInv (exUpdGoodReq.products.getD [])).2.2.1 =
        (exUpdGoodReq.products.getD []).filterMap (stagedUpdOf exUpdDb exUpdInv) ∧
      (∀ u ∈ (updLinesLoop exUpdDb exUpdInv (exUpdGoodReq.products.getD [])).2.2.1,
        ∃ p ∈ exUpdGoodReq.products.getD [],
          u.productName = p.name ∧
          u.quantityDifference = updDiff exUpdInv u.productId p ∧
          u.quantityDifference ≠ 0 ∧
          u.newStock = u.currentStock - u.quantityDifference) ∧
      (∀ pid q, findOriginal exUpdInv.products pid q.name = none →
        updDiff exUpdInv pid q = q.quantity)) ∧
     ((∃ p ∈ exUpdGoodReq.products.getD [], p.name ≠ "" ∧
        ∃ upid ud, resolveUpdLine exUpdDb p = some (upid, ud) ∧
          0 < updDiff exUpdInv upid p ∧
          jsOrI ud.q (jsOrI ud.quantity (jsOrI ud.currentStock 0)) <
            updDiff exUpdInv upid p) →
       (∃ e, (updateInvoice exUpdDb "inv-001" exUpdGoodReq).1 = Except.error e) ∧
       (updateInvoice exUpdDb "inv-001" exUpdGoodReq).2 = exUpdDb) ∧
     (∀ res, (updateInvoice exUpdDb "inv-001" exUpdGoodReq).1 = Except.ok res →
       (updateInvoice exUpdDb "inv-001" exUpdGoodReq).2.products =
         (commitProdUpdates exUpdDb
           ((updLinesLoop exUpdDb exUpdInv (exUpdGoodReq.products.getD [])).2.2.1.map
             fun u => ⟨u.productId, u.newStock, false⟩)).products ∧
       ∃ doc, (updateInvoice exUpdDb "inv-001" exUpdGoodReq).2.invoices.find
           (jsTrim (jsToUpper "inv-001")) = some doc ∧
         doc.products =
           (updLinesLoop exUpdDb exUpdInv (exUpdGoodReq.products.getD [])).2.1)) ∧
    ((∃ e, (updateInvoice exUpdDb "inv-001" exUpdBadReq).1 = Except.error e) ∧
     (updateInvoice exUpdDb "inv-001" exUpdBadReq).2 = exUpdDb) :=
  ⟨updateInvoice_diff_semantics exUpdDb "inv-001" exUpdGoodReq exUpdInv
     (exUpdGoodReq.products.getD []) (by decide) rfl rfl,
   (updateInvoice_diff_semantics exUpdDb "inv-001" exUpdBadReq exUpdInv
      (exUpdBadReq.products.getD []) (by decide) rfl rfl).2.1
     ⟨{ productId := some "p1", name := "apples", quantity := 10,
        unitPrice := some 10 }, by decide, by decide, "p1",
      { name := "apples", q := some 2, price := some 10 }, rfl,
      by decide, by decide⟩⟩

end Sofra
